import Mathlib

/-!
Verification development for the AI-Augmented Network Traffic Monitoring and
Smart Bandwidth Allocation system.

The repository's TypeScript source is shallowly embedded here:
* the drizzle schema entities (`drizzle/schema.ts`) become Lean structures;
  `decimal` Mbps columns are modelled as exact rationals, timestamps as
  natural numbers, nullable columns as `Option`;
* the database helpers (`server/db.ts`) become pure functions over an
  `Option Database` handle (`none` models an unavailable database);
* the WebSocket manager (`server/websocket.ts`) becomes explicit state:
  client subscription sets are insertion-ordered duplicate-free lists
  (mirroring a JS `Set<string>`), and one tick of the broadcast loop is a
  function from the upstream read result to the list of emitted messages;
* the bandwidth-allocation engine and the QoS `setRule` endpoint live in
  the repository's FastAPI AI service, outside the embedded sources, and
  are modelled from the specification's own algorithm description.
-/

/-- Traffic classes from the `trafficType` enum of the schema. -/
inductive TrafficClass where
  | video
  | voice
  | file
  | background
  | unknown
deriving DecidableEq, Repr

/-- Alert severities from the `severity` enum of `system_alerts`. -/
inductive Severity where
  | info
  | warning
  | critical
deriving DecidableEq, Repr

/-- One row of `traffic_logs`. Only the columns the embedded code reads are
kept: `timestamp`, `trafficType`, `packetSize` and the nullable `throughput`
(Mbps, modelled as `Option ℚ`). -/
structure TrafficLog where
  timestamp : ℕ
  trafficType : TrafficClass
  packetSize : ℕ
  throughput : Option ℚ
deriving DecidableEq, Repr

/-- One row of `active_flows` (columns the embedded code reads). -/
structure ActiveFlow where
  id : ℕ
  trafficType : TrafficClass
  currentBandwidth : ℚ
  allocatedBandwidth : Option ℚ
  lastSeen : ℕ
deriving DecidableEq, Repr

/-- One row of `predictions` (columns the embedded code reads). -/
structure Prediction where
  timestamp : ℕ
  trafficType : TrafficClass
  predictedBandwidth : ℚ
  confidence : ℚ
deriving DecidableEq, Repr

/-- One row of `qos_rules` (columns the embedded code reads). -/
structure QosRule where
  trafficType : TrafficClass
  priority : ℕ
  minBandwidth : ℚ
  maxBandwidth : ℚ
  dscp : Option ℕ
  enabled : Bool
deriving DecidableEq, Repr

/-- One row of `network_interfaces` (columns the embedded code reads). -/
structure NetworkInterface where
  name : String
  isActive : Bool
deriving DecidableEq, Repr

/-- One row of `system_alerts` (columns the embedded code reads). -/
structure SystemAlert where
  severity : Severity
  title : String
  message : String
  relatedFlowId : Option ℕ
  resolved : Bool
  createdAt : ℕ
deriving DecidableEq, Repr

/-- The relational store: one list per table used by the query helpers. -/
structure Database where
  trafficLogs : List TrafficLog
  activeFlows : List ActiveFlow
  predictions : List Prediction
  qosRules : List QosRule
  networkInterfaces : List NetworkInterface
  systemAlerts : List SystemAlert
deriving DecidableEq, Repr

/-- The relation behind `ORDER BY timestamp DESC` on traffic logs. -/
def logTsDesc (a b : TrafficLog) : Prop := b.timestamp ≤ a.timestamp

instance : DecidableRel logTsDesc :=
  fun a b => inferInstanceAs (Decidable (b.timestamp ≤ a.timestamp))

/-- The relation behind `ORDER BY lastSeen DESC` on active flows. -/
def flowSeenDesc (a b : ActiveFlow) : Prop := b.lastSeen ≤ a.lastSeen

instance : DecidableRel flowSeenDesc :=
  fun a b => inferInstanceAs (Decidable (b.lastSeen ≤ a.lastSeen))

/-- The relation behind `ORDER BY timestamp DESC` on predictions. -/
def predTsDesc (a b : Prediction) : Prop := b.timestamp ≤ a.timestamp

instance : DecidableRel predTsDesc :=
  fun a b => inferInstanceAs (Decidable (b.timestamp ≤ a.timestamp))

/-- The relation behind `ORDER BY createdAt DESC` on system alerts. -/
def alertCreatedDesc (a b : SystemAlert) : Prop := b.createdAt ≤ a.createdAt

instance : DecidableRel alertCreatedDesc :=
  fun a b => inferInstanceAs (Decidable (b.createdAt ≤ a.createdAt))

/-- The relation behind the unqualified `ORDER BY priority` (ascending) that
`getQosRules` issues in `server/db.ts`. -/
def priAsc (a b : QosRule) : Prop := a.priority ≤ b.priority

instance : DecidableRel priAsc :=
  fun a b => inferInstanceAs (Decidable (a.priority ≤ b.priority))

instance : IsTotal QosRule priAsc := ⟨fun a b => Nat.le_total a.priority b.priority⟩

instance : IsTrans QosRule priAsc := ⟨fun _ _ _ => Nat.le_trans⟩

/-- `getTrafficLogs` of `server/db.ts`: no database handle yields `[]`;
otherwise the logs ordered by timestamp descending, with offset and limit. -/
def getTrafficLogs (db : Option Database) (limit offset : ℕ) : List TrafficLog :=
  match db with
  | none => []
  | some d => (((List.insertionSort logTsDesc d.trafficLogs).drop offset).take limit)

/-- `getActiveFlows` of `server/db.ts`. -/
def getActiveFlows (db : Option Database) : List ActiveFlow :=
  match db with
  | none => []
  | some d => List.insertionSort flowSeenDesc d.activeFlows

/-- `getTrafficByType` of `server/db.ts`. -/
def getTrafficByType (db : Option Database) (trafficType : TrafficClass) : List TrafficLog :=
  match db with
  | none => []
  | some d =>
      (List.insertionSort logTsDesc
        (d.trafficLogs.filter (fun l => l.trafficType == trafficType))).take 100

/-- `getPredictions` of `server/db.ts` (optional traffic-type filter). -/
def getPredictions (db : Option Database) (trafficType : Option TrafficClass)
    (limit : ℕ) : List Prediction :=
  match db with
  | none => []
  | some d =>
      match trafficType with
      | some t =>
          (List.insertionSort predTsDesc
            (d.predictions.filter (fun p => p.trafficType == t))).take limit
      | none => (List.insertionSort predTsDesc d.predictions).take limit

/-- `getQosRules` of `server/db.ts`: `ORDER BY priority` with no direction,
that is, priority ascending. -/
def getQosRules (db : Option Database) : List QosRule :=
  match db with
  | none => []
  | some d => List.insertionSort priAsc d.qosRules

/-- `getNetworkInterfaces` of `server/db.ts`. -/
def getNetworkInterfaces (db : Option Database) : List NetworkInterface :=
  match db with
  | none => []
  | some d => d.networkInterfaces

/-- `getSystemAlerts` of `server/db.ts`. -/
def getSystemAlerts (db : Option Database) (unresolved : Bool) (limit : ℕ) :
    List SystemAlert :=
  match db with
  | none => []
  | some d =>
      if unresolved then
        (List.insertionSort alertCreatedDesc
          (d.systemAlerts.filter (fun a => !a.resolved))).take limit
      else
        (List.insertionSort alertCreatedDesc d.systemAlerts).take limit

/-- `insertTrafficLog` of `server/db.ts`: `null` (here `none`) and no state
change when the database handle is unavailable, otherwise an insert. -/
def insertTrafficLog (db : Option Database) (data : TrafficLog) :
    Option Unit × Option Database :=
  match db with
  | none => (none, none)
  | some d => (some (), some { d with trafficLogs := d.trafficLogs ++ [data] })

/-- `insertPrediction` of `server/db.ts`. -/
def insertPrediction (db : Option Database) (data : Prediction) :
    Option Unit × Option Database :=
  match db with
  | none => (none, none)
  | some d => (some (), some { d with predictions := d.predictions ++ [data] })

/-- `insertActiveFlow` of `server/db.ts`. -/
def insertActiveFlow (db : Option Database) (data : ActiveFlow) :
    Option Unit × Option Database :=
  match db with
  | none => (none, none)
  | some d => (some (), some { d with activeFlows := d.activeFlows ++ [data] })

/-- A `Partial<InsertActiveFlow>` patch: every updatable column optional. -/
structure ActiveFlowPatch where
  currentBandwidth : Option ℚ
  allocatedBandwidth : Option (Option ℚ)
  lastSeen : Option ℕ
deriving DecidableEq, Repr

/-- Application of a partial update to one `active_flows` row. -/
def applyFlowPatch (p : ActiveFlowPatch) (f : ActiveFlow) : ActiveFlow :=
  { f with
      currentBandwidth := p.currentBandwidth.getD f.currentBandwidth
      allocatedBandwidth := p.allocatedBandwidth.getD f.allocatedBandwidth
      lastSeen := p.lastSeen.getD f.lastSeen }

/-- `updateActiveFlow` of `server/db.ts`: `UPDATE active_flows SET … WHERE
id = flowId`, or `null` with no state change when no database handle. -/
def updateActiveFlow (db : Option Database) (flowId : ℕ) (data : ActiveFlowPatch) :
    Option Unit × Option Database :=
  match db with
  | none => (none, none)
  | some d =>
      (some (), some { d with
        activeFlows := d.activeFlows.map
          (fun f => if f.id == flowId then applyFlowPatch data f else f) })

/-- `insertSystemAlert` of `server/db.ts`. -/
def insertSystemAlert (db : Option Database) (data : SystemAlert) :
    Option Unit × Option Database :=
  match db with
  | none => (none, none)
  | some d => (some (), some { d with systemAlerts := d.systemAlerts ++ [data] })

/-- The tRPC `qos.getRules` procedure of `server/routers.ts`, which simply
calls `db.getQosRules()`. -/
def qosGetRules (db : Option Database) : List QosRule := getQosRules db

/-- A connected WebSocket client (`ClientConnection` in `server/websocket.ts`).
The JS `Set<string>` of subscribed channels is modelled as an
insertion-ordered list without duplicates. -/
structure ClientConnection where
  id : String
  subscriptions : List String
deriving DecidableEq, Repr

/-- The `subscribe` handler: `client.subscriptions.add(channel)`. Adding an
element already present to a JS `Set` leaves it unchanged. -/
def subscribeChannel (c : ClientConnection) (channel : String) : ClientConnection :=
  if channel ∈ c.subscriptions then c
  else { c with subscriptions := c.subscriptions ++ [channel] }

/-- The `unsubscribe` handler: `client.subscriptions.delete(channel)`.
Deleting an absent element from a JS `Set` is a no-op. -/
def unsubscribeChannel (c : ClientConnection) (channel : String) : ClientConnection :=
  { c with subscriptions := c.subscriptions.erase channel }

/-- The `stats` object built inline in the `traffic-update` payload. -/
structure BroadcastStats where
  totalFlows : ℕ
  totalPackets : ℕ
  activeAlerts : ℕ
deriving DecidableEq, Repr

/-- One `{count, avgThroughput}` entry of the `traffic-by-type` payload. -/
structure ClassStat where
  count : ℕ
  avgThroughput : ℚ
deriving DecidableEq, Repr

/-- The full `traffic-by-type` payload (one entry per QoS-relevant class). -/
structure TrafficByTypePayload where
  video : ClassStat
  voice : ClassStat
  file : ClassStat
  background : ClassStat
deriving DecidableEq, Repr

/-- JavaScript `Number.prototype.toFixed(2)` on an exact rational: round to
the nearest hundredth, ties toward the larger value. -/
def toFixed2 (q : ℚ) : ℚ := (Int.floor (q * 100 + 1 / 2) : ℚ) / 100

/-- The per-class statistic computed inline in `startBroadcasting` for one
already-filtered class list: `count` is its length and `avgThroughput` is the
`reduce`-accumulated sum of `log.throughput || 0` divided by the count and
formatted with `toFixed(2)`, or `0` when the list is empty. -/
def classStatOf (classLogs : List TrafficLog) : ClassStat :=
  { count := classLogs.length
    avgThroughput :=
      if 0 < classLogs.length then
        toFixed2
          ((classLogs.foldl (fun sum log => sum + log.throughput.getD 0) 0) /
            (classLogs.length : ℚ))
      else 0 }

/-- The `traffic-by-type` payload built by `startBroadcasting`: the fetched
logs are filtered once per class and each class gets its `classStatOf`. -/
def trafficByTypePayload (logs : List TrafficLog) : TrafficByTypePayload :=
  { video := classStatOf (logs.filter (fun log => log.trafficType == TrafficClass.video))
    voice := classStatOf (logs.filter (fun log => log.trafficType == TrafficClass.voice))
    file := classStatOf (logs.filter (fun log => log.trafficType == TrafficClass.file))
    background :=
      classStatOf (logs.filter (fun log => log.trafficType == TrafficClass.background)) }

/-- The messages a broadcast tick can emit (`socket.io` event plus payload). -/
inductive TickMessage where
  | trafficUpdate (logs : List TrafficLog) (flows : List ActiveFlow)
      (alerts : List SystemAlert) (stats : BroadcastStats)
  | trafficByType (payload : TrafficByTypePayload)
deriving DecidableEq, Repr

/-- The spec's channel name for each tick message kind (`traffic` for
`traffic-update`, `traffic-by-type` for `traffic-by-type`). -/
def channelFor : TickMessage → String
  | TickMessage.trafficUpdate _ _ _ _ => "traffic"
  | TickMessage.trafficByType _ => "traffic-by-type"

/-- The data the tick body reads upstream before emitting anything. -/
structure UpstreamData where
  trafficLogs : List TrafficLog
  activeFlows : List ActiveFlow
  alerts : List SystemAlert
deriving DecidableEq, Repr

/-- One iteration of the `setInterval` body in `startBroadcasting`. A failed
or timed-out upstream read raises inside the `try`; the `catch` only logs,
so the failing tick emits no message at all. A successful read emits the
`traffic-update` message (logs truncated to 50, `totalPackets` accumulated by
`reduce((sum) => sum + 1, 0)` over all fetched logs) followed by the
`traffic-by-type` message. -/
def tickEmits (read : Except String UpstreamData) : List TickMessage :=
  match read with
  | Except.error _ => []
  | Except.ok d =>
      [TickMessage.trafficUpdate (d.trafficLogs.take 50) d.activeFlows d.alerts
        { totalFlows := d.activeFlows.length
          totalPackets := d.trafficLogs.foldl (fun sum _ => sum + 1) 0
          activeAlerts := d.alerts.length },
       TickMessage.trafficByType (trafficByTypePayload d.trafficLogs)]

/-- What one tick delivers to the socket with the given id: both emissions go
through `this.io.emit`, which sends to every connected socket, so a connected
client receives every tick message and a disconnected one receives nothing.
Subscriptions play no part. -/
def tickDeliveredTo (clients : List ClientConnection) (cid : String)
    (read : Except String UpstreamData) : List TickMessage :=
  if clients.any (fun c => c.id == cid) then tickEmits read else []

/-- The broadcast loop over a whole schedule of tick read results: the
`catch` keeps the `setInterval` alive, so every scheduled tick runs and
produces its (possibly empty) emission list. -/
def runTicks (reads : List (Except String UpstreamData)) : List (List TickMessage) :=
  reads.map tickEmits

/-- `broadcastToSubscribers` of `server/websocket.ts`: the recipients of a
channel-filtered broadcast are exactly the connected clients whose
subscription set contains the channel. -/
def broadcastRecipients (clients : List ClientConnection) (channel : String) :
    List ClientConnection :=
  clients.filter (fun c => c.subscriptions.contains channel)

/-- The manager state relevant to the module-level singleton: which HTTP
server the manager was constructed around (handles modelled as numbers). -/
structure WSManager where
  server : ℕ
deriving DecidableEq, Repr

/-- `initializeWebSocket`: constructs the manager on the first call and
returns the already-constructed instance on every later call. First
component: the returned manager; second: the module-level `wsManager`
variable after the call. -/
def initializeWebSocket (wsManager : Option WSManager) (httpServer : ℕ) :
    WSManager × Option WSManager :=
  match wsManager with
  | none =>
      let m : WSManager := { server := httpServer }
      (m, some m)
  | some m => (m, some m)

/-- `getWebSocketManager`: returns the module-level variable as is. -/
def getWebSocketManager (wsManager : Option WSManager) : Option WSManager :=
  wsManager

/-- Canonical declaration order of the traffic classes, used by the spec's
tie-break (video before voice before file before background). -/
def classRank : TrafficClass → ℕ
  | TrafficClass.video => 0
  | TrafficClass.voice => 1
  | TrafficClass.file => 2
  | TrafficClass.background => 3
  | TrafficClass.unknown => 4

/-- Rule ordering of the allocation engine: priority descending, ties broken
by the canonical class order. -/
def ruleOrder (a b : QosRule) : Prop :=
  b.priority < a.priority ∨
    (a.priority = b.priority ∧ classRank a.trafficType ≤ classRank b.trafficType)

instance : DecidableRel ruleOrder :=
  fun a b =>
    inferInstanceAs (Decidable (b.priority < a.priority ∨
      (a.priority = b.priority ∧ classRank a.trafficType ≤ classRank b.trafficType)))

instance : IsTotal QosRule ruleOrder := by
  constructor
  intro a b
  rcases Nat.lt_trichotomy a.priority b.priority with h | h | h
  · exact Or.inr (Or.inl h)
  · rcases Nat.le_total (classRank a.trafficType) (classRank b.trafficType) with hc | hc
    · exact Or.inl (Or.inr ⟨h, hc⟩)
    · exact Or.inr (Or.inr ⟨h.symm, hc⟩)
  · exact Or.inl (Or.inl h)

instance : IsTrans QosRule ruleOrder := by
  constructor
  intro a b c hab hbc
  rcases hab with h1 | ⟨h1, h1c⟩ <;> rcases hbc with h2 | ⟨h2, h2c⟩
  · exact Or.inl (Nat.lt_trans h2 h1)
  · exact Or.inl (h2 ▸ h1)
  · exact Or.inl (by omega)
  · exact Or.inr ⟨h1.trans h2, h1c.trans h2c⟩

/-- Modelled from the spec: sorting step of the allocation engine (§4.3
step 1), which the embedded sources do not contain — the engine lives in the
repository's FastAPI AI service. Enabled rules are sorted by priority
descending with the canonical class tie-break. -/
def sortRules (rules : List QosRule) : List QosRule :=
  List.insertionSort ruleOrder (rules.filter (fun r => r.enabled))

/-- One entry of the allocation output (`AllocationResult` of the spec). -/
structure AllocationResult where
  trafficClass : TrafficClass
  requestedMbps : ℚ
  allocatedMbps : ℚ
  satisfiedMin : Bool
deriving DecidableEq, Repr

/-- Modelled from the spec: pass 1 of the allocation engine (§4.3 step 2),
absent from the embedded sources. For each rule in priority order it reserves
`min(rule.minBandwidthMbps, remainingBudget)`, marks `satisfiedMin` false
exactly when the full minimum could not be reserved, and continues with the
remaining budget. Each output entry is paired with its rule. -/
def pass1 (demand : TrafficClass → ℚ) :
    List QosRule → ℚ → List (QosRule × AllocationResult) × ℚ
  | [], remaining => ([], remaining)
  | r :: rest, remaining =>
      let reserve := min r.minBandwidth remaining
      let out := pass1 demand rest (remaining - reserve)
      ((r, { trafficClass := r.trafficType
             requestedMbps := demand r.trafficType
             allocatedMbps := reserve
             satisfiedMin := decide (r.minBandwidth ≤ remaining) }) :: out.1,
       out.2)

/-- Modelled from the spec: the shape shared by passes 2–4 of the allocation
engine (§4.3 steps 3–5), absent from the embedded sources. For every entry
whose rule the pass selects, the allocation grows toward the pass's target,
never shrinking and never beyond the remaining budget. -/
def growPass (select : QosRule → Bool) (target : QosRule → ℚ → ℚ) :
    List (QosRule × AllocationResult) → ℚ → List (QosRule × AllocationResult) × ℚ
  | [], remaining => ([], remaining)
  | (r, a) :: rest, remaining =>
      if select r then
        let growth := max 0 (min (target r a.requestedMbps - a.allocatedMbps) remaining)
        let out := growPass select target rest (remaining - growth)
        ((r, { a with allocatedMbps := a.allocatedMbps + growth }) :: out.1, out.2)
      else
        let out := growPass select target rest remaining
        ((r, a) :: out.1, out.2)

/-- Modelled from the spec: the full allocation engine of §4.3 (absent from
the embedded sources), with each result still paired with its rule. Pass 2
grows priority-3 classes toward `demand × 1.2` capped at `maxBandwidthMbps`;
pass 3 brings priority-1 classes to `min(demand, maxBandwidthMbps)` as budget
allows; pass 4 spreads the leftover budget over priority-0 classes up to
their `maxBandwidthMbps`, demand beyond that being throttled. -/
def allocateDetailed (demand : TrafficClass → ℚ) (rules : List QosRule)
    (totalBudget : ℚ) : List (QosRule × AllocationResult) :=
  let s1 := pass1 demand (sortRules rules) totalBudget
  let s2 := growPass (fun r => r.priority == 3)
    (fun r d => min (d * (6 / 5)) r.maxBandwidth) s1.1 s1.2
  let s3 := growPass (fun r => r.priority == 1)
    (fun r d => min d r.maxBandwidth) s2.1 s2.2
  let s4 := growPass (fun r => r.priority == 0)
    (fun r _ => r.maxBandwidth) s3.1 s3.2
  s4.1

/-- Modelled from the spec: the `allocate` contract of §4.3 — the list of
per-class `AllocationResult`s. -/
def allocate (demand : TrafficClass → ℚ) (rules : List QosRule)
    (totalBudget : ℚ) : List AllocationResult :=
  (allocateDetailed demand rules totalBudget).map (fun e => e.2)

/-- The error kind raised by rule validation (`InvalidRule` of §7). -/
inductive RuleError where
  | invalidRule
deriving DecidableEq, Repr

/-- Modelled from the spec: the `setRule` upsert of §6 with the `InvalidRule`
validation of §7 (`min > max` rejected at `setRule` time), absent from the
embedded sources — the endpoint lives in the FastAPI AI service. A valid rule
replaces the stored rule of the same traffic class, or is appended. -/
def setRule (stored : List QosRule) (r : QosRule) : Except RuleError (List QosRule) :=
  if r.maxBandwidth < r.minBandwidth then
    Except.error RuleError.invalidRule
  else if stored.any (fun s => s.trafficType == r.trafficType) then
    Except.ok (stored.map (fun s => if s.trafficType == r.trafficType then r else s))
  else
    Except.ok (stored ++ [r])

/-- The rule store after a `setRule` call: a rejected call leaves the prior
store untouched. -/
def setRuleState (stored : List QosRule) (r : QosRule) : List QosRule :=
  match setRule stored r with
  | Except.error _ => stored
  | Except.ok rules => rules

/-- Total bandwidth allocated across a list of paired allocation entries. -/
def sumAlloc (l : List (QosRule × AllocationResult)) : ℚ :=
  (l.map (fun e => e.2.allocatedMbps)).sum

/-- Stated from the spec's words, for comparison with the source-derived
payload: the fetched logs of one traffic class. -/
def classLogs (logs : List TrafficLog) (c : TrafficClass) : List TrafficLog :=
  logs.filter (fun log => log.trafficType == c)

/-- Stated from the spec's words: the number of fetched logs of one class. -/
def classCount (logs : List TrafficLog) (c : TrafficClass) : ℕ :=
  (classLogs logs c).length

/-- Stated from the spec's words: the sum of the class's `throughputMbps`
values, a missing throughput counted as `0`. -/
def classThroughputSum (logs : List TrafficLog) (c : TrafficClass) : ℚ :=
  ((classLogs logs c).map (fun log => log.throughput.getD 0)).sum

lemma foldl_add_map (f : TrafficLog → ℚ) (l : List TrafficLog) (a : ℚ) :
    l.foldl (fun s x => s + f x) a = a + (l.map f).sum := by
  induction l generalizing a with
  | nil => simp
  | cons x xs ih => simp [ih]; ring

lemma foldl_count (l : List TrafficLog) (a : ℕ) :
    l.foldl (fun s _ => s + 1) a = a + l.length := by
  induction l generalizing a with
  | nil => simp
  | cons x xs ih => simp [ih]; omega

lemma pass1_sum (demand : TrafficClass → ℚ) (rules : List QosRule) (rem : ℚ) :
    sumAlloc (pass1 demand rules rem).1 + (pass1 demand rules rem).2 = rem := by
  induction rules generalizing rem with
  | nil => simp [pass1, sumAlloc]
  | cons r rest ih =>
      have h := ih (rem - min r.minBandwidth rem)
      simp only [pass1, sumAlloc, List.map_cons, List.sum_cons] at h ⊢
      linarith

lemma pass1_rem_nonneg (demand : TrafficClass → ℚ) (rules : List QosRule)
    (rem : ℚ) (h : 0 ≤ rem) : 0 ≤ (pass1 demand rules rem).2 := by
  induction rules generalizing rem with
  | nil => simpa [pass1]
  | cons r rest ih =>
      simp only [pass1]
      exact ih _ (by simp [sub_nonneg, min_le_right])

lemma growPass_sum (select : QosRule → Bool) (target : QosRule → ℚ → ℚ)
    (entries : List (QosRule × AllocationResult)) (rem : ℚ) :
    sumAlloc (growPass select target entries rem).1 +
      (growPass select target entries rem).2 = sumAlloc entries + rem := by
  induction entries generalizing rem with
  | nil => simp [growPass, sumAlloc]
  | cons e rest ih =>
      obtain ⟨r, a⟩ := e
      by_cases hs : select r
      · have h := ih (rem - max 0 (min (target r a.requestedMbps - a.allocatedMbps) rem))
        simp only [growPass, hs, if_true, sumAlloc, List.map_cons, List.sum_cons] at h ⊢
        linarith
      · have h := ih rem
        have hsf : select r = false := by simpa using hs
        simp only [growPass, hsf, Bool.false_eq_true, if_false, sumAlloc,
          List.map_cons, List.sum_cons] at h ⊢
        linarith

lemma growPass_rem_nonneg (select : QosRule → Bool) (target : QosRule → ℚ → ℚ)
    (entries : List (QosRule × AllocationResult)) (rem : ℚ) (h : 0 ≤ rem) :
    0 ≤ (growPass select target entries rem).2 := by
  induction entries generalizing rem with
  | nil => simpa [growPass]
  | cons e rest ih =>
      obtain ⟨r, a⟩ := e
      by_cases hs : select r
      · simp only [growPass, hs, if_true]
        refine ih _ ?_
        have hle : max 0 (min (target r a.requestedMbps - a.allocatedMbps) rem) ≤ rem :=
          max_le h (min_le_right _ _)
        linarith
      · have hsf : select r = false := by simpa using hs
        simp only [growPass, hsf, Bool.false_eq_true, if_false]
        exact ih _ h

lemma pass1_fst (demand : TrafficClass → ℚ) (rules : List QosRule) (rem : ℚ) :
    (pass1 demand rules rem).1.map Prod.fst = rules := by
  induction rules generalizing rem with
  | nil => simp [pass1]
  | cons r rest ih => simp [pass1, ih]

/-- The pair of data that `growPass` never changes in an entry: its rule and
its `satisfiedMin` flag. -/
def ruleSat (e : QosRule × AllocationResult) : QosRule × Bool :=
  (e.1, e.2.satisfiedMin)

lemma growPass_ruleSat (select : QosRule → Bool) (target : QosRule → ℚ → ℚ)
    (entries : List (QosRule × AllocationResult)) (rem : ℚ) :
    (growPass select target entries rem).1.map ruleSat = entries.map ruleSat := by
  induction entries generalizing rem with
  | nil => simp [growPass]
  | cons e rest ih =>
      obtain ⟨r, a⟩ := e
      by_cases hs : select r
      · simp [growPass, hs, ruleSat, ih]
      · simp [growPass, hs, ruleSat, ih]

lemma pass1_zero_sat (demand : TrafficClass → ℚ) (rules : List QosRule)
    (hmin : ∀ r ∈ rules, 0 ≤ r.minBandwidth) :
    ∀ e ∈ (pass1 demand rules 0).1, e.2.satisfiedMin = true → e.1.minBandwidth ≤ 0 := by
  induction rules with
  | nil => simp [pass1]
  | cons r rest ih =>
      intro e he hsat
      have hr : 0 ≤ r.minBandwidth := hmin r (by simp)
      have hres : min r.minBandwidth (0 : ℚ) = 0 := min_eq_right hr
      simp only [pass1, List.mem_cons, hres, sub_zero] at he
      rcases he with he | he
      · subst he
        simp only [decide_eq_true_eq] at hsat
        exact hsat
      · exact ih (fun s hs => hmin s (by simp [hs])) e he hsat

/-- Along the pass-1 output, once a rule misses its minimum every later rule
with a positive minimum misses it too (for non-negative minimums): a later
satisfied entry with positive minimum forces every earlier entry satisfied. -/
lemma pass1_pairwise (demand : TrafficClass → ℚ) (rules : List QosRule) (rem : ℚ)
    (hmin : ∀ r ∈ rules, 0 ≤ r.minBandwidth) :
    List.Pairwise
      (fun x y => (y.2.satisfiedMin = true ∧ 0 < y.1.minBandwidth) →
        x.2.satisfiedMin = true)
      (pass1 demand rules rem).1 := by
  induction rules generalizing rem with
  | nil => simp [pass1]
  | cons r rest ih =>
      simp only [pass1, List.pairwise_cons]
      constructor
      · intro y hy ⟨hysat, hypos⟩
        by_cases hle : r.minBandwidth ≤ rem
        · simp [hle]
        · exfalso
          have hremle : rem ≤ r.minBandwidth := le_of_not_le hle
          have hres : min r.minBandwidth rem = rem := min_eq_right hremle
          rw [hres, sub_self] at hy
          have := pass1_zero_sat demand rest
            (fun s hs => hmin s (by simp [hs])) y hy hysat
          linarith
      · exact ih _ (fun s hs => hmin s (by simp [hs]))

lemma sorted_sortRules (rules : List QosRule) :
    List.Sorted ruleOrder (sortRules rules) :=
  List.sorted_insertionSort ruleOrder _

lemma allocateDetailed_ruleSat (demand : TrafficClass → ℚ) (rules : List QosRule)
    (budget : ℚ) :
    (allocateDetailed demand rules budget).map ruleSat =
      (pass1 demand (sortRules rules) budget).1.map ruleSat := by
  simp only [allocateDetailed]
  rw [growPass_ruleSat, growPass_ruleSat, growPass_ruleSat]

lemma any_id_self (clients : List ClientConnection) (c : ClientConnection)
    (hc : c ∈ clients) : clients.any (fun x => x.id == c.id) = true :=
  List.any_eq_true.mpr ⟨c, hc, by simp⟩

/-- C6: subscribing to a channel twice leaves the subscription set exactly as
subscribing once does, and unsubscribing a channel that was never subscribed
leaves the client unchanged; both handlers are total, so neither raises. -/
theorem subscription_idempotent_noop (c : ClientConnection) (channel : String) :
    subscribeChannel (subscribeChannel c channel) channel = subscribeChannel c channel ∧
    (channel ∉ c.subscriptions → unsubscribeChannel c channel = c) := by
  constructor
  · by_cases h : channel ∈ c.subscriptions
    · simp [subscribeChannel, h]
    · simp [subscribeChannel, h]
  · intro h
    simp [unsubscribeChannel, List.erase_of_not_mem h]

theorem subscription_idempotent_noop_witness :
    subscribeChannel (subscribeChannel ⟨"c1", ["alerts"]⟩ "traffic") "traffic" =
      subscribeChannel ⟨"c1", ["alerts"]⟩ "traffic" ∧
    unsubscribeChannel ⟨"c1", ["alerts"]⟩ "traffic" = ⟨"c1", ["alerts"]⟩ :=
  ⟨(subscription_idempotent_noop ⟨"c1", ["alerts"]⟩ "traffic").1,
   (subscription_idempotent_noop ⟨"c1", ["alerts"]⟩ "traffic").2 (by decide)⟩

/-- C9: `initializeWebSocket` constructs the manager on the first call,
returns the same instance on every later call while ignoring the
`httpServer` argument, and `getWebSocketManager` returns `none` before the
first call and the singleton instance after any call. -/
theorem initializeWebSocket_singleton (httpServer httpServer2 : ℕ)
    (m : WSManager) (st : Option WSManager) :
    initializeWebSocket none httpServer =
      ({ server := httpServer }, some { server := httpServer }) ∧
    initializeWebSocket (some m) httpServer2 = (m, some m) ∧
    getWebSocketManager none = none ∧
    getWebSocketManager (initializeWebSocket st httpServer).2 =
      some (initializeWebSocket st httpServer).1 := by
  refine ⟨rfl, rfl, rfl, ?_⟩
  cases st <;> rfl

/-- C10: with the database handle unavailable (`none`), every query helper
returns the empty list and every insert or update helper returns `none` and
leaves no database state behind. -/
theorem db_unavailable_graceful (limit offset : ℕ) (t : TrafficClass)
    (ot : Option TrafficClass) (unresolved : Bool) (log : TrafficLog)
    (p : Prediction) (fl : ActiveFlow) (fid : ℕ) (patch : ActiveFlowPatch)
    (al : SystemAlert) :
    getTrafficLogs none limit offset = [] ∧
    getActiveFlows none = [] ∧
    getTrafficByType none t = [] ∧
    getPredictions none ot limit = [] ∧
    getQosRules none = [] ∧
    getNetworkInterfaces none = [] ∧
    getSystemAlerts none unresolved limit = [] ∧
    insertTrafficLog none log = (none, none) ∧
    insertPrediction none p = (none, none) ∧
    insertActiveFlow none fl = (none, none) ∧
    updateActiveFlow none fid patch = (none, none) ∧
    insertSystemAlert none al = (none, none) :=
  ⟨rfl, rfl, rfl, rfl, rfl, rfl, rfl, rfl, rfl, rfl, rfl, rfl⟩

/-- C5 (amended): `getRules` returns the stored rules ordered by priority
ascending — the unqualified `ORDER BY priority` — not descending; the result
is a permutation of the stored rule set. -/
theorem getRules_sorted_ascending (db : Option Database) :
    List.Sorted priAsc (qosGetRules db) ∧
    (∀ d : Database, List.Perm (qosGetRules (some d)) d.qosRules) := by
  constructor
  · cases db with
    | none => simp [qosGetRules, getQosRules]
    | some d => exact List.sorted_insertionSort priAsc d.qosRules
  · intro d
    exact List.perm_insertionSort priAsc d.qosRules

/-- C5 counterexample: with a video rule of priority 3 and a file rule of
priority 1 stored, `getRules` returns the priority-1 rule first — the first
returned rule does not carry the greatest priority, so the list is not
ordered by priority descending as the claim states. -/
theorem getRules_descending_counterexample :
    qosGetRules (some ⟨[], [], [],
        [⟨TrafficClass.video, 3, 5, 50, none, true⟩,
         ⟨TrafficClass.file, 1, 1, 30, none, true⟩], [], []⟩) =
      [⟨TrafficClass.file, 1, 1, 30, none, true⟩,
       ⟨TrafficClass.video, 3, 5, 50, none, true⟩] ∧
    (1 : ℕ) < 3 := by
  constructor
  · rfl
  · decide

/-- C3 (amended): a failing upstream read never stops the broadcast loop —
every scheduled tick still runs — but the failing tick emits nothing at all:
the caught error produces neither the previous statistics nor a degraded-read
alert, while every successful tick emits a non-empty message list. -/
theorem tick_error_emits_nothing (reads : List (Except String UpstreamData)) :
    (runTicks reads).length = reads.length ∧
    (∀ e, tickEmits (Except.error e) = []) ∧
    (∀ d, tickEmits (Except.ok d) ≠ []) := by
  refine ⟨by simp [runTicks], fun e => rfl, fun d => by simp [tickEmits]⟩

/-- C3 counterexample: after a successful tick on empty upstream data (two
messages emitted), a tick whose read fails emits the empty list — not the
previous tick's messages with one added degraded-read alert, which would be
at least three messages. -/
theorem tick_degradation_counterexample :
    tickEmits (Except.error "upstream timeout") = [] ∧
    tickEmits (Except.ok ⟨[], [], []⟩) ≠ [] ∧
    tickEmits (Except.error "upstream timeout") ≠ tickEmits (Except.ok ⟨[], [], []⟩) := by
  refine ⟨rfl, by simp [tickEmits], by simp [tickEmits]⟩

/-- C2 (amended): the tick loop broadcasts through `io.emit`, so every
connected client receives every tick message — two per successful tick, a
`traffic-update` and a `traffic-by-type` — regardless of its subscription
set; only the separate `broadcastToSubscribers` path filters, reaching
exactly the clients whose subscription set contains the channel. -/
theorem tick_broadcast_unfiltered (clients : List ClientConnection)
    (c : ClientConnection) (read : Except String UpstreamData) (channel : String)
    (hc : c ∈ clients) :
    tickDeliveredTo clients c.id read = tickEmits read ∧
    (c ∈ broadcastRecipients clients channel ↔ channel ∈ c.subscriptions) := by
  constructor
  · simp [tickDeliveredTo, any_id_self clients c hc]
  · simp [broadcastRecipients, List.mem_filter, hc]

theorem tick_broadcast_unfiltered_witness :
    tickDeliveredTo [⟨"c1", ["alerts"]⟩] "c1" (Except.ok ⟨[], [], []⟩) =
      tickEmits (Except.ok ⟨[], [], []⟩) ∧
    ((⟨"c1", ["alerts"]⟩ : ClientConnection) ∈
        broadcastRecipients [⟨"c1", ["alerts"]⟩] "alerts" ↔
      "alerts" ∈ (["alerts"] : List String)) :=
  tick_broadcast_unfiltered [⟨"c1", ["alerts"]⟩] ⟨"c1", ["alerts"]⟩
    (Except.ok ⟨[], [], []⟩) "alerts" (by simp)

/-- C2 counterexample: a connected client subscribed only to `alerts` — and
never to `traffic` — still receives the tick's `traffic-update` message,
whose channel is not in its subscription set. -/
theorem tick_subscription_filter_counterexample :
    tickDeliveredTo [⟨"c1", ["alerts"]⟩] "c1" (Except.ok ⟨[], [], []⟩) =
      [TickMessage.trafficUpdate [] [] [] ⟨0, 0, 0⟩,
       TickMessage.trafficByType ⟨⟨0, 0⟩, ⟨0, 0⟩, ⟨0, 0⟩, ⟨0, 0⟩⟩] ∧
    channelFor (TickMessage.trafficUpdate [] [] [] ⟨0, 0, 0⟩) ∉
      (⟨"c1", ["alerts"]⟩ : ClientConnection).subscriptions := by
  constructor
  · rfl
  · simp [channelFor]

lemma classStatOf_spec (l : List TrafficLog) :
    classStatOf l =
      ⟨l.length,
        if l.length = 0 then 0
        else toFixed2 ((l.map (fun log => log.throughput.getD 0)).sum / (l.length : ℚ))⟩ := by
  unfold classStatOf
  by_cases h : l.length = 0
  · simp [h]
  · have hpos : 0 < l.length := Nat.pos_of_ne_zero h
    simp [h, hpos, foldl_add_map]

/-- C7 (amended): in every `traffic-by-type` payload and for each of the four
QoS classes, the count is the number of fetched logs of that class and the
average throughput is the sum of their `throughput` values (a missing value
counted as `0`) divided by the count and then rounded to two decimal places
by `toFixed(2)` — not the exact quotient — and `0` when the class has no
fetched logs. -/
theorem trafficByType_stats (logs : List TrafficLog) :
    (trafficByTypePayload logs).video =
      ⟨classCount logs TrafficClass.video,
        if classCount logs TrafficClass.video = 0 then 0
        else toFixed2 (classThroughputSum logs TrafficClass.video /
          (classCount logs TrafficClass.video : ℚ))⟩ ∧
    (trafficByTypePayload logs).voice =
      ⟨classCount logs TrafficClass.voice,
        if classCount logs TrafficClass.voice = 0 then 0
        else toFixed2 (classThroughputSum logs TrafficClass.voice /
          (classCount logs TrafficClass.voice : ℚ))⟩ ∧
    (trafficByTypePayload logs).file =
      ⟨classCount logs TrafficClass.file,
        if classCount logs TrafficClass.file = 0 then 0
        else toFixed2 (classThroughputSum logs TrafficClass.file /
          (classCount logs TrafficClass.file : ℚ))⟩ ∧
    (trafficByTypePayload logs).background =
      ⟨classCount logs TrafficClass.background,
        if classCount logs TrafficClass.background = 0 then 0
        else toFixed2 (classThroughputSum logs TrafficClass.background /
          (classCount logs TrafficClass.background : ℚ))⟩ := by
  refine ⟨?_, ?_, ?_, ?_⟩ <;>
    simp [trafficByTypePayload, classStatOf_spec, classCount, classLogs,
      classThroughputSum]

/-- C7 counterexample: three fetched video logs with throughputs 1, 1 and 2
yield count 3 and sum 4, but the emitted average is `(4/3).toFixed(2)`, that
is `133/100`, which differs from the exact quotient `4/3` the claim
requires. -/
theorem trafficByType_avg_counterexample :
    (trafficByTypePayload
        [⟨0, TrafficClass.video, 100, some 1⟩,
         ⟨1, TrafficClass.video, 100, some 1⟩,
         ⟨2, TrafficClass.video, 100, some 2⟩]).video.count = 3 ∧
    classThroughputSum
        [⟨0, TrafficClass.video, 100, some 1⟩,
         ⟨1, TrafficClass.video, 100, some 1⟩,
         ⟨2, TrafficClass.video, 100, some 2⟩] TrafficClass.video = 4 ∧
    (trafficByTypePayload
        [⟨0, TrafficClass.video, 100, some 1⟩,
         ⟨1, TrafficClass.video, 100, some 1⟩,
         ⟨2, TrafficClass.video, 100, some 2⟩]).video.avgThroughput = 133 / 100 ∧
    (133 / 100 : ℚ) ≠ 4 / 3 := by
  refine ⟨rfl, by norm_num [classThroughputSum, classLogs], ?_, by norm_num⟩
  norm_num [trafficByTypePayload, classStatOf, toFixed2]

lemma allocateDetailed_budget (demand : TrafficClass → ℚ) (rules : List QosRule)
    (budget : ℚ) (hb : 0 ≤ budget) :
    sumAlloc (allocateDetailed demand rules budget) ≤ budget := by
  have h1 := pass1_sum demand (sortRules rules) budget
  have h1n := pass1_rem_nonneg demand (sortRules rules) budget hb
  have h2 := growPass_sum (fun r => r.priority == 3)
    (fun r d => min (d * (6 / 5)) r.maxBandwidth)
    (pass1 demand (sortRules rules) budget).1
    (pass1 demand (sortRules rules) budget).2
  have h2n := growPass_rem_nonneg (fun r => r.priority == 3)
    (fun r d => min (d * (6 / 5)) r.maxBandwidth)
    (pass1 demand (sortRules rules) budget).1
    (pass1 demand (sortRules rules) budget).2 h1n
  have h3 := growPass_sum (fun r => r.priority == 1)
    (fun r d => min d r.maxBandwidth)
    (growPass (fun r => r.priority == 3)
      (fun r d => min (d * (6 / 5)) r.maxBandwidth)
      (pass1 demand (sortRules rules) budget).1
      (pass1 demand (sortRules rules) budget).2).1
    (growPass (fun r => r.priority == 3)
      (fun r d => min (d * (6 / 5)) r.maxBandwidth)
      (pass1 demand (sortRules rules) budget).1
      (pass1 demand (sortRules rules) budget).2).2
  have h3n := growPass_rem_nonneg (fun r => r.priority == 1)
    (fun r d => min d r.maxBandwidth)
    (growPass (fun r => r.priority == 3)
      (fun r d => min (d * (6 / 5)) r.maxBandwidth)
      (pass1 demand (sortRules rules) budget).1
      (pass1 demand (sortRules rules) budget).2).1
    (growPass (fun r => r.priority == 3)
      (fun r d => min (d * (6 / 5)) r.maxBandwidth)
      (pass1 demand (sortRules rules) budget).1
      (pass1 demand (sortRules rules) budget).2).2 h2n
  have h4 := growPass_sum (fun r => r.priority == 0)
    (fun r _ => r.maxBandwidth)
    (growPass (fun r => r.priority == 1)
      (fun r d => min d r.maxBandwidth)
      (growPass (fun r => r.priority == 3)
        (fun r d => min (d * (6 / 5)) r.maxBandwidth)
        (pass1 demand (sortRules rules) budget).1
        (pass1 demand (sortRules rules) budget).2).1
      (growPass (fun r => r.priority == 3)
        (fun r d => min (d * (6 / 5)) r.maxBandwidth)
        (pass1 demand (sortRules rules) budget).1
        (pass1 demand (sortRules rules) budget).2).2).1
    (growPass (fun r => r.priority == 1)
      (fun r d => min d r.maxBandwidth)
      (growPass (fun r => r.priority == 3)
        (fun r d => min (d * (6 / 5)) r.maxBandwidth)
        (pass1 demand (sortRules rules) budget).1
        (pass1 demand (sortRules rules) budget).2).1
      (growPass (fun r => r.priority == 3)
        (fun r d => min (d * (6 / 5)) r.maxBandwidth)
        (pass1 demand (sortRules rules) budget).1
        (pass1 demand (sortRules rules) budget).2).2).2
  have h4n := growPass_rem_nonneg (fun r => r.priority == 0)
    (fun r _ => r.maxBandwidth)
    (growPass (fun r => r.priority == 1)
      (fun r d => min d r.maxBandwidth)
      (growPass (fun r => r.priority == 3)
        (fun r d => min (d * (6 / 5)) r.maxBandwidth)
        (pass1 demand (sortRules rules) budget).1
        (pass1 demand (sortRules rules) budget).2).1
      (growPass (fun r => r.priority == 3)
        (fun r d => min (d * (6 / 5)) r.maxBandwidth)
        (pass1 demand (sortRules rules) budget).1
        (pass1 demand (sortRules rules) budget).2).2).1
    (growPass (fun r => r.priority == 1)
      (fun r d => min d r.maxBandwidth)
      (growPass (fun r => r.priority == 3)
        (fun r d => min (d * (6 / 5)) r.maxBandwidth)
        (pass1 demand (sortRules rules) budget).1
        (pass1 demand (sortRules rules) budget).2).1
      (growPass (fun r => r.priority == 3)
        (fun r d => min (d * (6 / 5)) r.maxBandwidth)
        (pass1 demand (sortRules rules) budget).1
        (pass1 demand (sortRules rules) budget).2).2).2 h3n
  simp only [allocateDetailed]
  linarith

/-- C1: for every rule set whose rules satisfy `min ≤ max`, every map of
non-negative per-class demands and every non-negative total budget, the
allocations returned by `allocate` sum to at most the total budget. -/
theorem allocate_budget_conservation (demand : TrafficClass → ℚ)
    (rules : List QosRule) (totalBudget : ℚ)
    (hrules : ∀ r ∈ rules, r.minBandwidth ≤ r.maxBandwidth)
    (hdemand : ∀ c, 0 ≤ demand c) (hbudget : 0 ≤ totalBudget) :
    ((allocate demand rules totalBudget).map (fun a => a.allocatedMbps)).sum ≤
      totalBudget := by
  have heq : ((allocate demand rules totalBudget).map (fun a => a.allocatedMbps)).sum =
      sumAlloc (allocateDetailed demand rules totalBudget) := by
    simp only [allocate, sumAlloc, List.map_map]
    rfl
  rw [heq]
  exact allocateDetailed_budget demand rules totalBudget hbudget

theorem allocate_budget_conservation_witness :
    (∀ r ∈ [(⟨TrafficClass.video, 3, 5, 50, none, true⟩ : QosRule)],
      r.minBandwidth ≤ r.maxBandwidth) ∧
    (∀ c : TrafficClass, (0 : ℚ) ≤ (fun _ => (10 : ℚ)) c) ∧
    ((0 : ℚ) ≤ 100) ∧
    ((allocate (fun _ => (10 : ℚ)) [⟨TrafficClass.video, 3, 5, 50, none, true⟩] 100).map
        (fun a => a.allocatedMbps)).sum ≤ 100 := by
  have h1 : ∀ r ∈ [(⟨TrafficClass.video, 3, 5, 50, none, true⟩ : QosRule)],
      r.minBandwidth ≤ r.maxBandwidth := by
    intro r hr
    simp only [List.mem_singleton] at hr
    subst hr
    norm_num
  have h2 : ∀ c : TrafficClass, (0 : ℚ) ≤ (fun _ => (10 : ℚ)) c := fun _ => by norm_num
  exact ⟨h1, h2, by norm_num,
    allocate_budget_conservation (fun _ => (10 : ℚ))
      [⟨TrafficClass.video, 3, 5, 50, none, true⟩] 100 h1 h2 (by norm_num)⟩

/-- C8: a rule with `min > max` is rejected with `InvalidRule` and the stored
rule set is left entirely unchanged; a valid rule is an upsert keyed by
`trafficClass` — the new rule is present, any result rule of its class is the
new rule itself, nothing outside the old store plus the new rule appears, and
every stored rule of a different class survives. -/
theorem setRule_validation (stored : List QosRule) (r : QosRule) :
    (r.maxBandwidth < r.minBandwidth →
      setRule stored r = Except.error RuleError.invalidRule ∧
      setRuleState stored r = stored) ∧
    (r.minBandwidth ≤ r.maxBandwidth →
      ∃ rules, setRule stored r = Except.ok rules ∧
        setRuleState stored r = rules ∧
        r ∈ rules ∧
        (∀ s ∈ rules, s.trafficType = r.trafficType → s = r) ∧
        (∀ s ∈ rules, s = r ∨ s ∈ stored) ∧
        (∀ s ∈ stored, s.trafficType ≠ r.trafficType → s ∈ rules)) := by
  constructor
  · intro h
    have he : setRule stored r = Except.error RuleError.invalidRule := by
      simp [setRule, h]
    exact ⟨he, by simp [setRuleState, he]⟩
  · intro h
    have hnl : ¬ r.maxBandwidth < r.minBandwidth := not_lt.mpr h
    by_cases hdup : stored.any (fun s => s.trafficType == r.trafficType) = true
    · refine ⟨stored.map (fun s => if s.trafficType == r.trafficType then r else s),
        ?_, ?_, ?_, ?_, ?_, ?_⟩
      · simp [setRule, hnl, hdup]
      · simp [setRuleState, setRule, hnl, hdup]
      · obtain ⟨s, hs, hseq⟩ := List.any_eq_true.mp hdup
        exact List.mem_map.mpr ⟨s, hs, by simp [hseq]⟩
      · intro s hs hst
        obtain ⟨t, ht, hteq⟩ := List.mem_map.mp hs
        by_cases hc : t.trafficType == r.trafficType
        · simp only [hc, if_true] at hteq
          exact hteq.symm
        · simp only [hc, Bool.false_eq_true, if_false] at hteq
          simp only [beq_iff_eq] at hc
          exact absurd (by rw [hteq]; exact hst) hc
      · intro s hs
        obtain ⟨t, ht, hteq⟩ := List.mem_map.mp hs
        by_cases hc : t.trafficType == r.trafficType
        · simp only [hc, if_true] at hteq
          exact Or.inl hteq.symm
        · simp only [hc, Bool.false_eq_true, if_false] at hteq
          exact Or.inr (hteq ▸ ht)
      · intro s hs hne
        refine List.mem_map.mpr ⟨s, hs, ?_⟩
        have hc : (s.trafficType == r.trafficType) = false := by
          simp [hne]
        simp [hc]
    · refine ⟨stored ++ [r], ?_, ?_, by simp, ?_, ?_, ?_⟩
      · simp [setRule, hnl, hdup]
      · simp [setRuleState, setRule, hnl, hdup]
      · intro s hs hst
        rcases List.mem_append.mp hs with hmem | hmem
        · exact absurd (List.any_eq_true.mpr ⟨s, hmem, by simp [hst]⟩) hdup
        · simpa using hmem
      · intro s hs
        rcases List.mem_append.mp hs with hmem | hmem
        · exact Or.inr hmem
        · exact Or.inl (by simpa using hmem)
      · intro s hs _
        exact List.mem_append_left _ hs

theorem setRule_validation_witness :
    ((⟨TrafficClass.video, 3, 10, 5, none, true⟩ : QosRule).maxBandwidth <
      (⟨TrafficClass.video, 3, 10, 5, none, true⟩ : QosRule).minBandwidth) ∧
    setRule [] ⟨TrafficClass.video, 3, 10, 5, none, true⟩ =
      Except.error RuleError.invalidRule ∧
    setRuleState [] ⟨TrafficClass.video, 3, 10, 5, none, true⟩ = [] := by
  have h : (⟨TrafficClass.video, 3, 10, 5, none, true⟩ : QosRule).maxBandwidth <
      (⟨TrafficClass.video, 3, 10, 5, none, true⟩ : QosRule).minBandwidth := by
    norm_num
  obtain ⟨h1, h2⟩ :=
    (setRule_validation [] ⟨TrafficClass.video, 3, 10, 5, none, true⟩).1 h
  exact ⟨h, h1, h2⟩

lemma growPass_fst (select : QosRule → Bool) (target : QosRule → ℚ → ℚ)
    (entries : List (QosRule × AllocationResult)) (rem : ℚ) :
    (growPass select target entries rem).1.map Prod.fst = entries.map Prod.fst := by
  induction entries generalizing rem with
  | nil => simp [growPass]
  | cons e rest ih =>
      obtain ⟨r, a⟩ := e
      by_cases hs : select r
      · simp [growPass, hs, ih]
      · have hsf : select r = false := by simpa using hs
        simp [growPass, hsf, ih]

lemma allocateDetailed_fst (demand : TrafficClass → ℚ) (rules : List QosRule)
    (budget : ℚ) :
    (allocateDetailed demand rules budget).map Prod.fst = sortRules rules := by
  simp only [allocateDetailed]
  rw [growPass_fst, growPass_fst, growPass_fst, pass1_fst]

lemma ruleOrder_priority {a b : QosRule} (h : ruleOrder a b) :
    b.priority ≤ a.priority := by
  rcases h with h | ⟨h, _⟩
  · exact le_of_lt h
  · exact le_of_eq h.symm

lemma sortRules_min_nonneg (rules : List QosRule)
    (hmin : ∀ r ∈ rules, 0 ≤ r.minBandwidth) :
    ∀ r ∈ sortRules rules, 0 ≤ r.minBandwidth := by
  intro r hr
  have hr2 : r ∈ rules.filter (fun x => x.enabled) :=
    (List.perm_insertionSort ruleOrder _).mem_iff.mp hr
  exact hmin r (List.mem_filter.mp hr2).1

lemma pass1_pairwise_ruleSat (demand : TrafficClass → ℚ) (rules : List QosRule)
    (rem : ℚ) (hmin : ∀ r ∈ rules, 0 ≤ r.minBandwidth) :
    List.Pairwise
      (fun x y : QosRule × Bool => (y.2 = true ∧ 0 < y.1.minBandwidth) → x.2 = true)
      ((pass1 demand rules rem).1.map ruleSat) := by
  rw [List.pairwise_map]
  exact pass1_pairwise demand rules rem hmin

/-- C4 (amended): for every valid rule set whose minimums are additionally
non-negative, non-negative demands and non-negative budget, and every two
entries of the allocation output whose first rule has strictly higher
priority than the second: when the lower-priority rule's minimum is strictly
positive and its entry has `satisfiedMin` true, the higher-priority entry has
`satisfiedMin` true as well. -/
theorem allocate_priority_monotone (demand : TrafficClass → ℚ)
    (rules : List QosRule) (totalBudget : ℚ)
    (hrules : ∀ r ∈ rules, r.minBandwidth ≤ r.maxBandwidth)
    (hmin : ∀ r ∈ rules, 0 ≤ r.minBandwidth)
    (hdemand : ∀ c, 0 ≤ demand c) (hbudget : 0 ≤ totalBudget)
    (p q : QosRule × AllocationResult)
    (hp : p ∈ allocateDetailed demand rules totalBudget)
    (hq : q ∈ allocateDetailed demand rules totalBudget)
    (hpq : q.1.priority < p.1.priority)
    (hqpos : 0 < q.1.minBandwidth)
    (hqsat : q.2.satisfiedMin = true) :
    p.2.satisfiedMin = true := by
  have hminS : ∀ r ∈ sortRules rules, 0 ≤ r.minBandwidth :=
    sortRules_min_nonneg rules hmin
  have hpw1m := pass1_pairwise_ruleSat demand (sortRules rules) totalBudget hminS
  rw [← allocateDetailed_ruleSat demand rules totalBudget] at hpw1m
  rw [List.pairwise_map] at hpw1m
  have hsorted : List.Pairwise (fun a b : QosRule => b.priority ≤ a.priority)
      (sortRules rules) :=
    List.Pairwise.imp (fun h => ruleOrder_priority h) (sorted_sortRules rules)
  rw [← allocateDetailed_fst demand rules totalBudget] at hsorted
  rw [List.pairwise_map] at hsorted
  obtain ⟨i, hi, hip⟩ := List.getElem_of_mem hp
  obtain ⟨j, hj, hjq⟩ := List.getElem_of_mem hq
  rcases Nat.lt_trichotomy i j with hij | hij | hij
  · have hPR := (List.pairwise_iff_getElem.mp hpw1m) i j hi hj hij
    rw [hip, hjq] at hPR
    exact hPR ⟨hqsat, hqpos⟩
  · subst hij
    have hpeq : p = q := hip.symm.trans hjq
    rw [hpeq] at hpq
    exact absurd hpq (lt_irrefl _)
  · have hle := (List.pairwise_iff_getElem.mp hsorted) j i hj hi hij
    rw [hip, hjq] at hle
    exact absurd hpq (not_lt.mpr hle)

/-- C4 counterexample: rules video (priority 3, min 20, max 30) and
background (priority 0, min 0, max 5), zero demands, budget 10 — all within
the claim's hypotheses. Video reserves only `min(20,10) = 10` so its
`satisfiedMin` is false, while background's minimum of 0 is trivially
reserved so its `satisfiedMin` is true: a lower-priority class is satisfied
while a strictly higher-priority one is not, refuting the claim as stated. -/
theorem allocate_priority_monotone_counterexample :
    ¬ (∀ p ∈ allocateDetailed (fun _ => 0)
          [⟨TrafficClass.video, 3, 20, 30, none, true⟩,
           ⟨TrafficClass.background, 0, 0, 5, none, true⟩] 10,
        ∀ q ∈ allocateDetailed (fun _ => 0)
          [⟨TrafficClass.video, 3, 20, 30, none, true⟩,
           ⟨TrafficClass.background, 0, 0, 5, none, true⟩] 10,
          q.1.priority < p.1.priority → q.2.satisfiedMin = true →
            p.2.satisfiedMin = true) := by
  intro hmono
  have heval : allocateDetailed (fun _ => 0)
      [⟨TrafficClass.video, 3, 20, 30, none, true⟩,
       ⟨TrafficClass.background, 0, 0, 5, none, true⟩] 10 =
      [(⟨TrafficClass.video, 3, 20, 30, none, true⟩,
          ⟨TrafficClass.video, 0, 10, false⟩),
       (⟨TrafficClass.background, 0, 0, 5, none, true⟩,
          ⟨TrafficClass.background, 0, 0, true⟩)] := by
    norm_num [allocateDetailed, sortRules, List.insertionSort, List.orderedInsert,
      ruleOrder, classRank, pass1, growPass]
  have hp : (⟨TrafficClass.video, 3, 20, 30, none, true⟩,
      (⟨TrafficClass.video, 0, 10, false⟩ : AllocationResult)) ∈
      allocateDetailed (fun _ => 0)
        [⟨TrafficClass.video, 3, 20, 30, none, true⟩,
         ⟨TrafficClass.background, 0, 0, 5, none, true⟩] 10 := by
    rw [heval]; simp
  have hq : (⟨TrafficClass.background, 0, 0, 5, none, true⟩,
      (⟨TrafficClass.background, 0, 0, true⟩ : AllocationResult)) ∈
      allocateDetailed (fun _ => 0)
        [⟨TrafficClass.video, 3, 20, 30, none, true⟩,
         ⟨TrafficClass.background, 0, 0, 5, none, true⟩] 10 := by
    rw [heval]; simp
  have hfalse := hmono _ hp _ hq (by norm_num) rfl
  simp at hfalse

theorem allocate_priority_monotone_witness :
    (⟨TrafficClass.video, 3, 5, 50, none, true⟩,
      (⟨TrafficClass.video, 0, 5, true⟩ : AllocationResult)) ∈
      allocateDetailed (fun _ => 0)
        [⟨TrafficClass.video, 3, 5, 50, none, true⟩,
         ⟨TrafficClass.file, 1, 2, 30, none, true⟩] 100 ∧
    (⟨TrafficClass.file, 1, 2, 30, none, true⟩,
      (⟨TrafficClass.file, 0, 2, true⟩ : AllocationResult)) ∈
      allocateDetailed (fun _ => 0)
        [⟨TrafficClass.video, 3, 5, 50, none, true⟩,
         ⟨TrafficClass.file, 1, 2, 30, none, true⟩] 100 ∧
    ((1 : ℕ) < 3) ∧ ((0 : ℚ) < 2) ∧
    ((⟨TrafficClass.video, 0, 5, true⟩ : AllocationResult)).satisfiedMin = true := by
  have heval : allocateDetailed (fun _ => 0)
      [⟨TrafficClass.video, 3, 5, 50, none, true⟩,
       ⟨TrafficClass.file, 1, 2, 30, none, true⟩] 100 =
      [(⟨TrafficClass.video, 3, 5, 50, none, true⟩,
          ⟨TrafficClass.video, 0, 5, true⟩),
       (⟨TrafficClass.file, 1, 2, 30, none, true⟩,
          ⟨TrafficClass.file, 0, 2, true⟩)] := by
    norm_num [allocateDetailed, sortRules, List.insertionSort, List.orderedInsert,
      ruleOrder, classRank, pass1, growPass]
  have hp : (⟨TrafficClass.video, 3, 5, 50, none, true⟩,
      (⟨TrafficClass.video, 0, 5, true⟩ : AllocationResult)) ∈
      allocateDetailed (fun _ => 0)
        [⟨TrafficClass.video, 3, 5, 50, none, true⟩,
         ⟨TrafficClass.file, 1, 2, 30, none, true⟩] 100 := by
    rw [heval]; simp
  have hq : (⟨TrafficClass.file, 1, 2, 30, none, true⟩,
      (⟨TrafficClass.file, 0, 2, true⟩ : AllocationResult)) ∈
      allocateDetailed (fun _ => 0)
        [⟨TrafficClass.video, 3, 5, 50, none, true⟩,
         ⟨TrafficClass.file, 1, 2, 30, none, true⟩] 100 := by
    rw [heval]; simp
  refine ⟨hp, hq, by norm_num, by norm_num, ?_⟩
  exact allocate_priority_monotone (fun _ => 0)
    [⟨TrafficClass.video, 3, 5, 50, none, true⟩,
     ⟨TrafficClass.file, 1, 2, 30, none, true⟩] 100
    (by intro r hr; fin_cases hr <;> norm_num)
    (by intro r hr; fin_cases hr <;> norm_num)
    (fun _ => by norm_num) (by norm_num)
    (⟨TrafficClass.video, 3, 5, 50, none, true⟩, ⟨TrafficClass.video, 0, 5, true⟩)
    (⟨TrafficClass.file, 1, 2, 30, none, true⟩, ⟨TrafficClass.file, 0, 2, true⟩)
    hp hq (by norm_num) (by norm_num) rfl

theorem tick_error_emits_nothing_witness :
    (runTicks [Except.error "upstream down"]).length =
      ([Except.error "upstream down"] : List (Except String UpstreamData)).length ∧
    tickEmits (Except.error "upstream down") = [] ∧
    tickEmits (Except.ok ⟨[], [], []⟩) ≠ [] := by
  obtain ⟨h1, h2, h3⟩ := tick_error_emits_nothing [Except.error "upstream down"]
  exact ⟨h1, h2 "upstream down", h3 ⟨[], [], []⟩⟩

theorem getRules_sorted_ascending_witness :
    List.Sorted priAsc (qosGetRules (some ⟨[], [], [],
      [⟨TrafficClass.video, 3, 5, 50, none, true⟩,
       ⟨TrafficClass.file, 1, 1, 30, none, true⟩], [], []⟩)) ∧
    List.Perm (qosGetRules (some ⟨[], [], [],
      [⟨TrafficClass.video, 3, 5, 50, none, true⟩,
       ⟨TrafficClass.file, 1, 1, 30, none, true⟩], [], []⟩))
      [⟨TrafficClass.video, 3, 5, 50, none, true⟩,
       ⟨TrafficClass.file, 1, 1, 30, none, true⟩] := by
  obtain ⟨h1, h2⟩ := getRules_sorted_ascending (some ⟨[], [], [],
    [⟨TrafficClass.video, 3, 5, 50, none, true⟩,
     ⟨TrafficClass.file, 1, 1, 30, none, true⟩], [], []⟩)
  exact ⟨h1, h2 ⟨[], [], [],
    [⟨TrafficClass.video, 3, 5, 50, none, true⟩,
     ⟨TrafficClass.file, 1, 1, 30, none, true⟩], [], []⟩⟩

theorem trafficByType_stats_witness :
    (trafficByTypePayload []).video =
      ⟨classCount [] TrafficClass.video,
        if classCount [] TrafficClass.video = 0 then 0
        else toFixed2 (classThroughputSum [] TrafficClass.video /
          (classCount [] TrafficClass.video : ℚ))⟩ :=
  (trafficByType_stats []).1

theorem initializeWebSocket_singleton_witness :
    initializeWebSocket none 7 = ({ server := 7 }, some { server := 7 }) ∧
    initializeWebSocket (some { server := 7 }) 9 =
      ({ server := 7 }, some { server := 7 }) ∧
    getWebSocketManager none = none ∧
    getWebSocketManager (initializeWebSocket (some { server := 7 }) 7).2 =
      some (initializeWebSocket (some { server := 7 }) 7).1 :=
  initializeWebSocket_singleton 7 9 { server := 7 } (some { server := 7 })

theorem db_unavailable_graceful_witness :
    getTrafficLogs none 100 0 = [] ∧
    getActiveFlows none = [] ∧
    getTrafficByType none TrafficClass.video = [] ∧
    getPredictions none none 100 = [] ∧
    getQosRules none = [] ∧
    getNetworkInterfaces none = [] ∧
    getSystemAlerts none true 50 = [] ∧
    insertTrafficLog none ⟨0, TrafficClass.video, 100, none⟩ = (none, none) ∧
    insertPrediction none ⟨0, TrafficClass.video, 1, 50⟩ = (none, none) ∧
    insertActiveFlow none ⟨0, TrafficClass.video, 1, none, 0⟩ = (none, none) ∧
    updateActiveFlow none 0 ⟨none, none, none⟩ = (none, none) ∧
    insertSystemAlert none ⟨Severity.info, "t", "m", none, false, 0⟩ = (none, none) :=
  db_unavailable_graceful 100 0 TrafficClass.video none true
    ⟨0, TrafficClass.video, 100, none⟩ ⟨0, TrafficClass.video, 1, 50⟩
    ⟨0, TrafficClass.video, 1, none, 0⟩ 0 ⟨none, none, none⟩
    ⟨Severity.info, "t", "m", none, false, 0⟩
